import Mathlib

set_option autoImplicit false

/-!
Shallow embedding of the espc3-tcptool UART/TCP bridge core
(src/tcp_client_manager.rs, src/uart.rs, src/tcp_server.rs, src/config.rs).

The embedding is sequential: mutex acquisition on the registry map, the UART
driver and the per-stream locks is assumed to succeed unless an operation's
environment explicitly records a lock failure (the Rust `Err` paths on those
locks exist only for mutex poisoning).  The outcomes of the external I/O calls
(socket write/flush, esp_idf uart_set_baudrate, NVS persistence, bind) are
passed in as explicit environment values, so every state-changing operation of
the source becomes a pure function on an explicit state.
-/

namespace Espc3

/-! ## Client registry (src/tcp_client_manager.rs) -/

/-- Socket addresses are abstract keys. -/
abbrev Addr := Nat

/-- TCP stream handles are abstract values; the registry never inspects them. -/
abbrev Stream := Nat

/-- usize on the esp32c3 target is 32 bits; the atomic client counter wraps
modulo 2^32. -/
def usizeMod : Nat := 2 ^ 32

/-- Kinds of I/O errors a socket write or flush can fail with. -/
inductive IoErrKind where
  | wouldBlock
  | timedOut
  | brokenPipe
  | connectionReset
  | otherErr
  deriving DecidableEq, Repr

/-- The broadcast loop treats an error as transient exactly when its debug
string contains "WouldBlock" or "TimedOut" (tcp_client_manager.rs:140,151). -/
def IoErrKind.isTransient : IoErrKind → Bool
  | .wouldBlock => true
  | .timedOut => true
  | _ => false

/-- Outcome of the per-client I/O that one broadcast iteration performs on a
snapshot entry: whether the stream mutex was acquired, the result of
`write_all` and the result of `flush` (`none` means Ok). -/
structure ClientWriteOutcome where
  lockOk : Bool
  writeResult : Option IoErrKind
  flushResult : Option IoErrKind
  deriving DecidableEq, Repr

/-- State of a `TcpClientManager`: the clients map, modelled as an association
list from address to stream (HashMap iteration order is irrelevant to every
claim), and the cached atomic `client_count`. -/
structure CMState where
  clients : List (Addr × Stream)
  counter : Nat
  deriving DecidableEq, Repr

/-- TcpClientManager::new. -/
def CMState.new : CMState := ⟨[], 0⟩

/-- HashMap::contains_key on the association list. -/
def containsKey (l : List (Addr × Stream)) (addr : Addr) : Bool :=
  l.any (fun c => c.1 == addr)

/-- TcpClientManager::add_client (tcp_client_manager.rs:51-78).  The
`set_nonblocking(false)` call and its possible failure are logged side effects
with no effect on the registry state.  `HashMap::insert` replaces the stored
stream when the key is already present; the atomic counter is incremented
(with usize wrap-around) only when the key was new. -/
def add_client (st : CMState) (addr : Addr) (s : Stream) : CMState :=
  let isNew := ! containsKey st.clients addr
  let clients :=
    if containsKey st.clients addr then
      st.clients.map (fun c => if c.1 == addr then (addr, s) else c)
    else
      (addr, s) :: st.clients
  if isNew then
    { clients := clients, counter := (st.counter + 1) % usizeMod }
  else
    { clients := clients, counter := st.counter }

/-- TcpClientManager::remove_client (tcp_client_manager.rs:81-96).  The entry
is removed if present; the counter is decremented (usize `fetch_sub(1)`, with
wrap-around) only when an entry was actually removed.  The function returns
`Ok(())` in both cases, which the total Lean function reflects. -/
def remove_client (st : CMState) (addr : Addr) : CMState :=
  let removed := containsKey st.clients addr
  let clients := st.clients.filter (fun c => ! (c.1 == addr))
  if removed then
    { clients := clients, counter := (st.counter + (usizeMod - 1)) % usizeMod }
  else
    { clients := clients, counter := st.counter }

/-- One iteration of the broadcast loop body (tcp_client_manager.rs:130-161)
for one snapshot entry, threading the accumulator
`(success_count, disconnected_clients)`:
a failed stream lock marks the client disconnected; a `write_all` error marks
it disconnected unless transient; after a successful `write_all`, a `flush`
error marks it disconnected unless transient, and in every remaining case
(flush Ok or transient flush error) `success_count` is incremented. -/
def broadcastStep (env : Addr → ClientWriteOutcome) (acc : Nat × List Addr)
    (c : Addr × Stream) : Nat × List Addr :=
  let io := env c.1
  if io.lockOk then
    match io.writeResult with
    | none =>
        match io.flushResult with
        | none => (acc.1 + 1, acc.2)
        | some e =>
            if e.isTransient then (acc.1 + 1, acc.2)
            else (acc.1, acc.2 ++ [c.1])
    | some e =>
        if e.isTransient then (acc.1, acc.2)
        else (acc.1, acc.2 ++ [c.1])
  else (acc.1, acc.2 ++ [c.1])

/-- TcpClientManager::broadcast (tcp_client_manager.rs:100-173).  Empty data
returns 0 at once; an empty registry returns 0 after the snapshot; otherwise
the snapshot is iterated with `broadcastStep`, and afterwards the clients
collected as disconnected are removed from the map under a second lock.  The
eviction removes map entries without touching the atomic counter.  The `env`
argument gives the I/O outcome for each client's stream.  Returns the new
state and the `Ok` payload `success_count`. -/
def broadcast (st : CMState) (env : Addr → ClientWriteOutcome) (data : List Nat) :
    CMState × Nat :=
  if data.isEmpty then (st, 0)
  else if st.clients.isEmpty then (st, 0)
  else
    let r := st.clients.foldl (broadcastStep env) (0, [])
    ({ clients := st.clients.filter (fun c => ! r.2.contains c.1),
       counter := st.counter }, r.1)

/-- TcpClientManager::client_count (tcp_client_manager.rs:177-194): serves the
cached atomic counter; only when the cached value reads zero does it lock the
map, recompute the true size, store it back into the counter and return it. -/
def client_count (st : CMState) : CMState × Nat :=
  if st.counter == 0 then
    ({ st with counter := st.clients.length }, st.clients.length)
  else
    (st, st.counter)

/-- Registry operations, for stating reachability of registry states. -/
inductive Op where
  | addC (addr : Addr) (s : Stream)
  | removeC (addr : Addr)
  | bcast (env : Addr → ClientWriteOutcome) (data : List Nat)
  | countC

/-- Apply one registry operation to a state. -/
def applyOp (st : CMState) : Op → CMState
  | .addC a s => add_client st a s
  | .removeC a => remove_client st a
  | .bcast env data => (broadcast st env data).1
  | .countC => (client_count st).1

/-- Run a sequence of registry operations from the initial state. -/
def runOps (ops : List Op) : CMState := ops.foldl applyOp CMState.new

/-- A snapshot entry contributes to broadcast's returned success count exactly
when the stream lock was acquired, `write_all` succeeded, and `flush` either
succeeded or failed with a transient error (characterisation used to specify
`broadcast`). -/
def countedOutcome (io : ClientWriteOutcome) : Bool :=
  io.lockOk &&
    match io.writeResult with
    | some _ => false
    | none =>
        match io.flushResult with
        | none => true
        | some e => e.isTransient

/-- A snapshot entry is scheduled for removal exactly when the stream lock
failed, or `write_all` failed non-transiently, or `write_all` succeeded and
`flush` failed non-transiently (characterisation used to specify
`broadcast`). -/
def evictedOutcome (io : ClientWriteOutcome) : Bool :=
  if io.lockOk then
    match io.writeResult with
    | some e => ! e.isTransient
    | none =>
        match io.flushResult with
        | none => false
        | some e => ! e.isTransient
  else true

/-! ## Serial bridge (src/uart.rs) -/

/-- The fixed list of supported baud rates (uart.rs VALID_BAUDRATES). -/
def VALID_BAUDRATES : List Nat :=
  [9600, 19200, 38400, 57600, 115200, 230400, 460800, 921600, 1500000]

/-- UartManager::is_valid_baudrate (uart.rs:237-244). -/
def is_valid_baudrate (baudrate : Nat) : Bool :=
  VALID_BAUDRATES.contains baudrate

/-- State of a `UartManager` relevant to the speed claims: the in-memory
configured baudrate (config.baudrate) and the value persisted in flash, if
any. -/
structure UartState where
  baudrate : Nat
  savedBaudrate : Option Nat
  deriving DecidableEq, Repr

/-- Environment of one set_baudrate call: the esp_idf_sys::uart_set_baudrate
return code (0 means the live hardware apply succeeded), whether a storage
manager exists, whether its mutex lock succeeds, and whether save_baudrate
succeeds. -/
structure SetBaudEnv where
  hwResult : Int
  storageAvailable : Bool
  storageLockOk : Bool
  saveOk : Bool
  deriving DecidableEq, Repr

/-- UartManager::set_baudrate (uart.rs:171-234).  An unsupported rate is
rejected with a typed UART error before any state is touched.  For a supported
rate the live hardware apply result (`env.hwResult`) only selects a log
message; the in-memory configured value is updated unconditionally, then the
new value is saved to flash when storage is available, lockable and the save
succeeds (a persistence failure is logged, not propagated).  Returns the
result and the post-call state. -/
def set_baudrate (st : UartState) (env : SetBaudEnv) (baudrate : Nat) :
    Except String Unit × UartState :=
  if ! is_valid_baudrate baudrate then
    (.error ("Invalid baudrate: " ++ toString baudrate), st)
  else
    let st1 : UartState := { st with baudrate := baudrate }
    let st2 : UartState :=
      if env.storageAvailable && env.storageLockOk && env.saveOk then
        { st1 with savedBaudrate := some baudrate }
      else st1
    (.ok (), st2)

/-- UartManager::get_baudrate (uart.rs:247-249). -/
def get_baudrate (st : UartState) : Nat := st.baudrate

/-- UART configuration (config.rs:56-63). -/
structure UartConfig where
  baudrate : Nat
  buffer_size : Nat
  poll_interval_ms : Nat
  deriving DecidableEq, Repr

/-- UartConfig::default (config.rs:65-73). -/
def UartConfig.default : UartConfig :=
  { baudrate := 115200, buffer_size := 1024, poll_interval_ms := 1 }

/-- Adaptive-polling state of the forwarding loop: the current adaptive sleep
interval and the time elapsed since data was last received (uart.rs:270-271,
the `Instant` is modelled as elapsed milliseconds). -/
structure FwdState where
  adaptive_interval_ms : Nat
  elapsed_since_data_ms : Nat
  deriving DecidableEq, Repr

/-- The receive/broadcast/interval part of one iteration of the forwarding
loop (uart.rs:294-324).  `recv` is the result of `receive_data`.  On
`Ok(len)` with `len > 0` the read slice is broadcast (returned as `some len`),
the last-data time is reset and the adaptive interval is reset to the
configured poll interval; on `Ok(0)`, once more than 100 ms have passed since
data last arrived, the adaptive interval is set to
`min poll_interval_ms 5`; a receive error is ignored entirely. -/
def forwardingIteration (cfg : UartConfig) (st : FwdState) (recv : Except Unit Nat) :
    FwdState × Option Nat :=
  match recv with
  | .ok len =>
      if len > 0 then
        ({ adaptive_interval_ms := cfg.poll_interval_ms, elapsed_since_data_ms := 0 },
         some len)
      else
        if st.elapsed_since_data_ms > 100 then
          ({ st with adaptive_interval_ms := min cfg.poll_interval_ms 5 }, none)
        else (st, none)
  | .error _ => (st, none)

/-! ## Connection server and command protocol (src/tcp_server.rs) -/

/-- TCP server configuration (config.rs:35-42). -/
structure TcpServerConfig where
  bind_address : String
  port : Nat
  buffer_size : Nat
  deriving DecidableEq, Repr

/-- TcpServerConfig::default (config.rs:44-52). -/
def TcpServerConfig.default : TcpServerConfig :=
  { bind_address := "0.0.0.0", port := 8080, buffer_size := 2048 }

/-- TcpServer::is_command (tcp_server.rs:50-62): data shorter than 3 bytes is
never a command; otherwise the first three bytes are compared with the ASCII
marker bytes of "AT+" (65, 84, 43). -/
def is_command (data : List Nat) : Bool :=
  if data.length < 3 then false
  else if data.getD 0 0 == 65 && data.getD 1 0 == 84 && data.getD 2 0 == 43 then
    true
  else false

/-- The bind phase of TcpServer::run (tcp_server.rs:224-261): bind the
configured address and port; on failure retry on the alternate address
192.168.4.1 with the same port; on failure again retry on 0.0.0.0 with
port + 1 (u16 addition on the port); if that fails too return the fatal
"Failed to bind to any address" error.  `bindOk` tells which socket addresses
can be bound. -/
def runBind (cfg : TcpServerConfig) (bindOk : String × Nat → Bool) :
    Except String (String × Nat) :=
  if bindOk (cfg.bind_address, cfg.port) then
    .ok (cfg.bind_address, cfg.port)
  else if bindOk ("192.168.4.1", cfg.port) then
    .ok ("192.168.4.1", cfg.port)
  else if bindOk ("0.0.0.0", (cfg.port + 1) % 65536) then
    .ok ("0.0.0.0", (cfg.port + 1) % 65536)
  else
    .error "Failed to bind to any address"

/-- Mode bit of one TCP stream: whether it is currently in non-blocking
mode. -/
structure StreamMode where
  nonblocking : Bool
  deriving DecidableEq, Repr

/-- Environment of one send_response call: whether the stream mutex lock
succeeds, whether the `set_nonblocking(false)` call succeeds, the results of
`write_all` and `flush` (`none` means Ok), and whether the restoring
`set_nonblocking(true)` call succeeds. -/
structure SendEnv where
  lockOk : Bool
  setBlockingOk : Bool
  writeResult : Option IoErrKind
  flushResult : Option IoErrKind
  restoreOk : Bool
  deriving DecidableEq, Repr

/-- TcpServer::send_response (tcp_server.rs:185-219), acting on the
originating connection's stream only.  After locking the stream it switches
it to blocking mode (best effort, result discarded), performs
`write_all` then `flush`, and only on the fully successful path issues the
best-effort `set_nonblocking(true)` restore before returning Ok; a write or
flush failure returns an error immediately, leaving the mode as it is. -/
def send_response (mode : StreamMode) (env : SendEnv) :
    Except String Unit × StreamMode :=
  if ! env.lockOk then (.error "Failed to lock stream", mode)
  else
    let mode1 : StreamMode := if env.setBlockingOk then { nonblocking := false } else mode
    match env.writeResult with
    | some _ => (.error "Failed to send response", mode1)
    | none =>
        match env.flushResult with
        | some _ => (.error "Failed to flush response", mode1)
        | none =>
            let mode2 : StreamMode :=
              if env.restoreOk then { nonblocking := true } else mode1
            (.ok (), mode2)

/-- Rust u32 parsing as used on the AT+BAUD= argument (str::parse::<u32>):
an optional leading plus sign, then at least one ASCII digit, and the value
must fit in 32 bits. -/
def parseU32 (s : String) : Option Nat :=
  let t := if s.startsWith "+" then s.drop 1 else s
  if t.isEmpty then none
  else if t.all (fun c => c.isDigit) then
    let v := t.foldl (fun acc c => acc * 10 + (c.toNat - 48)) 0
    if v < 2 ^ 32 then some v else none
  else none

/-- The static AT+HELP response text (tcp_server.rs:153-157). -/
def helpText : String :=
  "\r\nAvailable commands:\r\n"
    ++ "  AT+BAUD=<rate>  - Change UART baud rate\r\n"
    ++ "  AT+BAUD?       - Query current UART baud rate\r\n"
    ++ "  AT+HELP        - Show this help message\r\n"
    ++ "\r\nSupported baud rates: 9600, 19200, 38400, 57600, 115200, 230400, 460800, 921600, 1500000\r\n"

/-- Result of one process_command call: the returned Result, the UART state
after the call, and the response text handed to send_response. -/
structure CmdOutcome where
  result : Except String Unit
  uart : UartState
  response : String
  deriving Repr

/-- TcpServer::process_command (tcp_server.rs:69-182).  `payload` is the
result of decoding the received bytes as UTF-8 (std::str::from_utf8 is
modelled abstractly: `none` means the payload was not valid UTF-8).  Every
branch sends exactly one response to the originating connection;
`sendResult` is the outcome of that send_response call.  A non-UTF-8 payload
sends an error response and then fails with a typed TcpError (or with the
send error, if sending the response itself failed); every other branch —
successful speed change, rejected speed, unparsable value, query, help,
unknown command — returns the outcome of sending the response, so it returns
Ok exactly when the response was delivered. -/
def process_command (payload : Option String) (st : UartState) (setEnv : SetBaudEnv)
    (sendResult : Except String Unit) : CmdOutcome :=
  match payload with
  | none =>
      { result :=
          match sendResult with
          | .error e => .error e
          | .ok _ => .error "Invalid command format (not UTF-8)",
        uart := st,
        response := "ERROR: Invalid command format (not UTF-8)\r\n" }
  | some raw =>
      let cmd := raw.trim
      if cmd.startsWith "AT+BAUD=" then
        let baudStr := cmd.drop 8
        match parseU32 baudStr with
        | some baudrate =>
            match set_baudrate st setEnv baudrate with
            | (.ok _, st2) =>
                { result := sendResult, uart := st2,
                  response := "OK: Baudrate changed to " ++ toString baudrate ++ "\r\n" }
            | (.error msg, st2) =>
                { result := sendResult, uart := st2,
                  response := "ERROR: Failed to set baudrate: UART error: " ++ msg ++ "\r\n" }
        | none =>
            { result := sendResult, uart := st,
              response := "ERROR: Invalid baudrate value: " ++ baudStr ++ "\r\n" }
      else if cmd.startsWith "AT+BAUD?" then
        { result := sendResult, uart := st,
          response := "Current baudrate: " ++ toString (get_baudrate st) ++ "\r\n" }
      else if cmd.startsWith "AT+HELP" then
        { result := sendResult, uart := st, response := helpText }
      else
        { result := sendResult, uart := st,
          response := "ERROR: Unknown command: " ++ cmd
            ++ "\r\nType AT+HELP for available commands\r\n" }

/-- Whether an Except value is the Ok constructor. -/
def exceptOk {α : Type} (r : Except String α) : Bool :=
  match r with
  | .ok _ => true
  | .error _ => false

/-! ## Helper lemmas about the broadcast loop -/

/-- One broadcast iteration adds one to the success count exactly when the
entry's outcome is counted, and appends the address to the disconnected list
exactly when the outcome is evicting. -/
theorem broadcastStep_eq (env : Addr → ClientWriteOutcome) (acc : Nat × List Addr)
    (c : Addr × Stream) :
    broadcastStep env acc c =
      (acc.1 + cond (countedOutcome (env c.1)) 1 0,
       acc.2 ++ cond (evictedOutcome (env c.1)) [c.1] []) := by
  rcases hio : env c.1 with ⟨lk, wr, fr⟩
  cases lk <;> rcases wr with _ | e <;> rcases fr with _ | f <;>
    (try cases e) <;> (try cases f) <;>
      simp [broadcastStep, countedOutcome, evictedOutcome, IoErrKind.isTransient, hio]

/-- Closed form of the broadcast loop: starting from accumulator `(n, d)`, the
fold returns `n` plus the number of counted entries, and `d` extended by the
addresses of the evicting entries in order. -/
theorem broadcast_loop_spec (env : Addr → ClientWriteOutcome)
    (l : List (Addr × Stream)) :
    ∀ (n : Nat) (d : List Addr),
      l.foldl (broadcastStep env) (n, d) =
        (n + (l.filter (fun c => countedOutcome (env c.1))).length,
         d ++ (l.filter (fun c => evictedOutcome (env c.1))).map Prod.fst) := by
  induction l with
  | nil => intro n d; simp
  | cons c t ih =>
      intro n d
      rw [List.foldl_cons, broadcastStep_eq, ih]
      cases hco : countedOutcome (env c.1) <;> cases hev : evictedOutcome (env c.1) <;>
        simp [List.filter_cons, hco, hev] <;> omega

/-- Membership in the disconnected list computed by the broadcast loop, for an
entry of the snapshot, is exactly the evicting condition on its address. -/
theorem broadcast_removed_eq (env : Addr → ClientWriteOutcome)
    (l : List (Addr × Stream)) (x : Addr × Stream) (hx : x ∈ l) :
    ((l.filter (fun c => evictedOutcome (env c.1))).map Prod.fst).contains x.1 =
      evictedOutcome (env x.1) := by
  cases hev : evictedOutcome (env x.1)
  · refine Bool.eq_false_iff.mpr fun hc => ?_
    have hmem : x.1 ∈ (l.filter (fun c => evictedOutcome (env c.1))).map Prod.fst := by
      simpa [List.contains, List.elem_iff] using hc
    rcases List.mem_map.mp hmem with ⟨y, hy, hyx⟩
    have hyev := (List.mem_filter.mp hy).2
    rw [hyx] at hyev
    rw [hev] at hyev
    exact Bool.false_ne_true hyev
  · have hmem : x.1 ∈ (l.filter (fun c => evictedOutcome (env c.1))).map Prod.fst :=
      List.mem_map.mpr ⟨x, List.mem_filter.mpr ⟨hx, hev⟩, rfl⟩
    simpa [List.contains, List.elem_iff] using hmem

/-! ## Claim theorems -/

/-- C1 (amended), proved form: for every non-empty input, every registry state
and every assignment of per-client I/O outcomes, broadcast returns the number
of clients whose stream lock was acquired, whose write_all succeeded and whose
flush succeeded or failed transiently (so a transient flush failure counts as
a success); the clients left in the map are exactly those not marked
disconnected (lock failure, fatal write, or fatal flush), and the cached
counter is not touched by these evictions. -/
theorem c1_broadcast_spec (st : CMState) (env : Addr → ClientWriteOutcome)
    (data : List Nat) (hdata : data ≠ []) :
    (broadcast st env data).2 =
        (st.clients.filter (fun c => countedOutcome (env c.1))).length ∧
    (broadcast st env data).1.clients =
        st.clients.filter (fun c => ! evictedOutcome (env c.1)) ∧
    (broadcast st env data).1.counter = st.counter := by
  have hde : data.isEmpty = false := by
    cases data with
    | nil => exact absurd rfl hdata
    | cons a t => rfl
  by_cases hcl : st.clients.isEmpty
  · have hnil : st.clients = [] := List.isEmpty_iff.mp hcl
    simp [broadcast, hde, hcl, hnil]
  · have hclf : st.clients.isEmpty = false := Bool.eq_false_iff.mpr hcl
    have hfold := broadcast_loop_spec env st.clients 0 []
    refine ⟨?_, ?_, ?_⟩
    · simp [broadcast, hde, hclf, hfold]
    · simp only [broadcast, hde, hclf, Bool.false_eq_true, if_false, hfold,
        List.nil_append]
      exact List.filter_congr fun x hx => by
        rw [broadcast_removed_eq env st.clients x hx]
    · simp [broadcast, hde, hclf]

/-- C1 counterexample to the claim as stated: a registry with one client whose
write_all succeeds but whose flush fails with the transient WouldBlock error.
The claim says such a client neither counts as a success nor is removed, but
broadcast returns 1 (the client is counted as a success); it is indeed not
removed. -/
theorem c1_counterexample :
    (broadcast ⟨[(0, 0)], 1⟩ (fun _ => ⟨true, none, some .wouldBlock⟩) [7]).2 = 1 ∧
    (broadcast ⟨[(0, 0)], 1⟩ (fun _ => ⟨true, none, some .wouldBlock⟩) [7]).1.clients
      = [(0, 0)] := by decide

/-- Concrete I/O environment for the broadcast witness: client 0 succeeds
fully, every other client fails its write with a broken pipe. -/
def envW : Addr → ClientWriteOutcome := fun a =>
  if a == 0 then ⟨true, none, none⟩ else ⟨true, some .brokenPipe, none⟩

/-- Witness for c1_broadcast_spec at a concrete two-client registry: the fatal
client is evicted, the healthy one is counted, the counter is untouched. -/
theorem c1_broadcast_spec_witness :
    (broadcast ⟨[(0, 0), (1, 1)], 2⟩ envW [7]).2 = 1 ∧
    (broadcast ⟨[(0, 0), (1, 1)], 2⟩ envW [7]).1.clients = [(0, 0)] ∧
    (broadcast ⟨[(0, 0), (1, 1)], 2⟩ envW [7]).1.counter = 2 := by
  have h := c1_broadcast_spec ⟨[(0, 0), (1, 1)], 2⟩ envW [7] (by decide)
  refine ⟨?_, ?_, ?_⟩
  · rw [h.1]; decide
  · rw [h.2.1]; decide
  · rw [h.2.2]

/-- C2: for every supported rate, set_baudrate returns Ok and get_baudrate
then reads back exactly that rate, for every outcome of the live hardware
apply call and of the flash persistence. -/
theorem c2_set_get_roundtrip (st : UartState) (env : SetBaudEnv) (r : Nat)
    (hr : VALID_BAUDRATES.contains r = true) :
    (set_baudrate st env r).1 = .ok () ∧
    get_baudrate (set_baudrate st env r).2 = r := by
  have hv : is_valid_baudrate r = true := hr
  by_cases hs : (env.storageAvailable && env.storageLockOk && env.saveOk) = true <;>
    exact ⟨by simp [set_baudrate, hv, hs], by simp [set_baudrate, get_baudrate, hv, hs]⟩

/-- Witness for c2_set_get_roundtrip: rate 9600 with a failed hardware apply
(nonzero esp-idf error code). -/
theorem c2_set_get_roundtrip_witness :
    (set_baudrate ⟨115200, none⟩ ⟨-1, true, true, true⟩ 9600).1 = .ok () ∧
    get_baudrate (set_baudrate ⟨115200, none⟩ ⟨-1, true, true, true⟩ 9600).2 = 9600 :=
  c2_set_get_roundtrip ⟨115200, none⟩ ⟨-1, true, true, true⟩ 9600 (by decide)

/-- C3: for every value outside the enumerated set of supported rates,
set_baudrate returns the typed invalid-baudrate error and the state — hence
get_baudrate — is unchanged. -/
theorem c3_reject_invalid (st : UartState) (env : SetBaudEnv) (v : Nat)
    (hv : VALID_BAUDRATES.contains v = false) :
    (set_baudrate st env v).1 = .error ("Invalid baudrate: " ++ toString v) ∧
    (set_baudrate st env v).2 = st ∧
    get_baudrate (set_baudrate st env v).2 = get_baudrate st := by
  have h : is_valid_baudrate v = false := hv
  refine ⟨?_, ?_, ?_⟩ <;> simp [set_baudrate, h]

/-- Witness for c3_reject_invalid: rate 12345 is rejected and the configured
speed stays 115200. -/
theorem c3_reject_invalid_witness :
    (set_baudrate ⟨115200, none⟩ ⟨0, true, true, true⟩ 12345).1 =
        .error ("Invalid baudrate: " ++ toString 12345) ∧
    (set_baudrate ⟨115200, none⟩ ⟨0, true, true, true⟩ 12345).2 = ⟨115200, none⟩ ∧
    get_baudrate (set_baudrate ⟨115200, none⟩ ⟨0, true, true, true⟩ 12345).2 =
        get_baudrate ⟨115200, none⟩ :=
  c3_reject_invalid ⟨115200, none⟩ ⟨0, true, true, true⟩ 12345 (by decide)

/-- C5: is_command is true exactly on byte sequences of length at least 3
whose first three bytes are the ASCII marker "AT+" (65, 84, 43); in
particular every input of length 0, 1 or 2 yields false. -/
theorem c5_is_command_iff (data : List Nat) :
    is_command data = true ↔ 3 ≤ data.length ∧ data.take 3 = [65, 84, 43] := by
  match data with
  | [] => simp [is_command]
  | [a] => simp [is_command]
  | [a, b] => simp [is_command]
  | a :: b :: c :: rest =>
    have hlen : ¬ (a :: b :: c :: rest).length < 3 := by
      simp only [List.length_cons]
      omega
    have hle : 3 ≤ (a :: b :: c :: rest).length := by
      simp only [List.length_cons]
      omega
    simp [is_command, hlen, hle, List.getD_cons_zero, List.getD_cons_succ, and_assoc]

/-- C4 (amended), proved form: client_count reconciles with (and stores) the
true map size exactly when the cached counter reads zero; when the cache is
nonzero it returns the cached value, which after broadcast evictions may
differ from the true map size; consequently client_count can never report
zero clients while the map is non-empty (the starvation the spec wards off
cannot occur). -/
theorem c4_count_cache (st : CMState) :
    (st.counter = 0 →
        (client_count st).2 = st.clients.length ∧
        (client_count st).1.counter = st.clients.length) ∧
    (st.counter ≠ 0 → (client_count st).2 = st.counter) ∧
    (0 < st.clients.length → 0 < (client_count st).2) := by
  by_cases h : st.counter = 0
  · refine ⟨fun _ => ⟨?_, ?_⟩, fun hne => absurd h hne, fun hlen => ?_⟩ <;>
      simp [client_count, h]
    omega
  · refine ⟨fun h0 => absurd h0 h, fun _ => ?_, fun _ => ?_⟩ <;>
      simp [client_count, h]
    omega

/-- Witness for c4_count_cache: with a zero cache and one client the true
size 1 is returned; with cache 3 the cached 3 is returned. -/
theorem c4_count_cache_witness :
    (client_count ⟨[(7, 0)], 0⟩).2 = 1 ∧ (client_count ⟨[(7, 0)], 3⟩).2 = 3 :=
  ⟨((c4_count_cache ⟨[(7, 0)], 0⟩).1 rfl).1,
   (c4_count_cache ⟨[(7, 0)], 3⟩).2.1 (by decide)⟩

/-- C4 counterexample to the claim as stated: the reachable state obtained by
adding clients 0 and 1 and then broadcasting while client 1 fails fatally has
a map holding only client 0 but a cached counter of 2 (broadcast eviction does
not decrement the counter), and client_count returns the stale cached 2, not
the true map size 1 — so a cache/map disagreement is not reconciled when the
cache is nonzero. -/
theorem c4_counterexample :
    (client_count (runOps [Op.addC 0 0, Op.addC 1 0,
        Op.bcast (fun a => if a == 1 then ⟨true, some .brokenPipe, none⟩
          else ⟨true, none, none⟩) [7]])).2 = 2 ∧
    (runOps [Op.addC 0 0, Op.addC 1 0,
        Op.bcast (fun a => if a == 1 then ⟨true, some .brokenPipe, none⟩
          else ⟨true, none, none⟩) [7]]).clients = [(0, 0)] := by decide

/-- C6: with the repository's configured bind address 0.0.0.0 (the only one
the program constructs) and a port below 65535, the bind phase first tries
the configured address and port, then falls back to the alternate local
address 192.168.4.1 on the same port, then to the configured address on
port + 1, and returns the fatal error exactly when all three attempts fail. -/
theorem c6_bind_fallback (cfg : TcpServerConfig) (bindOk : String × Nat → Bool)
    (haddr : cfg.bind_address = "0.0.0.0") (hport : cfg.port + 1 < 65536) :
    (bindOk (cfg.bind_address, cfg.port) = true →
        runBind cfg bindOk = .ok (cfg.bind_address, cfg.port)) ∧
    (bindOk (cfg.bind_address, cfg.port) = false →
        bindOk ("192.168.4.1", cfg.port) = true →
        runBind cfg bindOk = .ok ("192.168.4.1", cfg.port)) ∧
    (bindOk (cfg.bind_address, cfg.port) = false →
        bindOk ("192.168.4.1", cfg.port) = false →
        bindOk (cfg.bind_address, cfg.port + 1) = true →
        runBind cfg bindOk = .ok (cfg.bind_address, cfg.port + 1)) ∧
    ((∃ msg, runBind cfg bindOk = .error msg) ↔
        (bindOk (cfg.bind_address, cfg.port) = false ∧
         bindOk ("192.168.4.1", cfg.port) = false ∧
         bindOk (cfg.bind_address, cfg.port + 1) = false)) := by
  rcases cfg with ⟨ba, p, bs⟩
  simp only at haddr hport
  subst haddr
  have hmod : (p + 1) % 65536 = p + 1 := Nat.mod_eq_of_lt hport
  refine ⟨fun h1 => ?_, fun h1 h2 => ?_, fun h1 h2 h3 => ?_, ?_⟩
  · simp [runBind, h1]
  · simp [runBind, h1, h2]
  · simp [runBind, h1, h2, hmod, h3]
  · cases hb1 : bindOk ("0.0.0.0", p) <;>
      cases hb2 : bindOk ("192.168.4.1", p) <;>
        cases hb3 : bindOk ("0.0.0.0", p + 1) <;>
          simp [runBind, hb1, hb2, hb3, hmod]

/-- Witness for c6_bind_fallback, matching the spec scenario: binding the
default 0.0.0.0:8080 and the alternate 192.168.4.1:8080 both fail, the third
attempt 0.0.0.0:8081 succeeds. -/
theorem c6_bind_fallback_witness :
    runBind TcpServerConfig.default (fun p => p.2 == 8081) = .ok ("0.0.0.0", 8081) :=
  (c6_bind_fallback TcpServerConfig.default (fun p => p.2 == 8081) rfl
      (by decide)).2.2.1 (by decide) (by decide) (by decide)

/-- C7 (amended), proved form: send_response succeeds exactly when the stream
lock, the write and the flush all succeed; on the fully successful path the
non-blocking mode is restored (when the restoring call itself works), but on
a write or flush failure the function returns early and the stream is left in
blocking mode — the restore is not performed for failing outcomes. -/
theorem c7_send_response_mode (mode : StreamMode) (env : SendEnv) :
    (exceptOk (send_response mode env).1 = true ↔
        (env.lockOk = true ∧ env.writeResult = none ∧ env.flushResult = none)) ∧
    (env.lockOk = true → env.writeResult = none → env.flushResult = none →
        env.restoreOk = true → (send_response mode env).2.nonblocking = true) ∧
    (env.lockOk = true → env.setBlockingOk = true →
        ¬ (env.writeResult = none ∧ env.flushResult = none) →
        (send_response mode env).2.nonblocking = false) := by
  rcases env with ⟨lk, sb, wr, fr, ro⟩
  cases lk <;> cases sb <;> rcases wr with _ | e <;> rcases fr with _ | f <;>
    cases ro <;> simp [send_response, exceptOk]

/-- Witness for c7_send_response_mode: on full success the mode is restored to
non-blocking; with a timed-out write the stream stays blocking. -/
theorem c7_send_response_mode_witness :
    (send_response ⟨true⟩ ⟨true, true, none, none, true⟩).2.nonblocking = true ∧
    (send_response ⟨true⟩
        ⟨true, true, some IoErrKind.timedOut, none, true⟩).2.nonblocking = false :=
  ⟨(c7_send_response_mode ⟨true⟩ ⟨true, true, none, none, true⟩).2.1 rfl rfl rfl rfl,
   (c7_send_response_mode ⟨true⟩ ⟨true, true, some IoErrKind.timedOut, none, true⟩).2.2
      rfl rfl (by simp)⟩

/-- C7 counterexample to the claim as stated: when the blocking-mode write
fails (broken pipe), send_response returns the error without restoring the
connection's non-blocking mode — the stream that was non-blocking on entry is
left in blocking mode. -/
theorem c7_counterexample :
    (send_response ⟨true⟩
        ⟨true, true, some .brokenPipe, none, true⟩).2.nonblocking = false ∧
    exceptOk (send_response ⟨true⟩
        ⟨true, true, some .brokenPipe, none, true⟩).1 = false := by decide

/-- C8, evaluation at the failing input: with the default configuration
(poll_interval_ms = 1), an idle iteration past the 100 ms grace period sets
the adaptive interval to min(poll_interval_ms, 5) = 1, i.e. it stays at the
configured minimum instead of being relaxed above it as the claim (and the
source comment) state; an iteration that receives data does reset the
interval to the configured minimum. -/
theorem c8_idle_interval_not_relaxed :
    (forwardingIteration UartConfig.default ⟨1, 200⟩ (.ok 0)).1.adaptive_interval_ms
        = UartConfig.default.poll_interval_ms ∧
    UartConfig.default.poll_interval_ms = 1 ∧
    (forwardingIteration UartConfig.default ⟨5, 200⟩ (.ok 4)).1.adaptive_interval_ms
        = UartConfig.default.poll_interval_ms := by decide

/-- C9: for every registry state whose counter does not sit at the usize
wrap-around boundary, add_client increments the cached counter by exactly one
when the address is new and leaves it unchanged when it replaces an existing
entry, and remove_client decrements it by exactly one when the address was
present and leaves it unchanged when absent. -/
theorem c9_counter_membership (st : CMState) (addr : Addr) (s : Stream)
    (hc : st.counter + 1 < usizeMod) :
    (containsKey st.clients addr = false →
        (add_client st addr s).counter = st.counter + 1) ∧
    (containsKey st.clients addr = true →
        (add_client st addr s).counter = st.counter) ∧
    (containsKey st.clients addr = true → 0 < st.counter →
        (remove_client st addr).counter = st.counter - 1) ∧
    (containsKey st.clients addr = false →
        (remove_client st addr).counter = st.counter) := by
  have hu : usizeMod = 4294967296 := by norm_num [usizeMod]
  have hmod : (st.counter + 1) % usizeMod = st.counter + 1 := Nat.mod_eq_of_lt hc
  refine ⟨fun h => ?_, fun h => ?_, fun h h0 => ?_, fun h => ?_⟩
  · simp [add_client, h, hmod]
  · simp [add_client, h]
  · simp only [remove_client, h, Bool.not_true, if_true]
    have h1 : st.counter + (usizeMod - 1) = (st.counter - 1) + usizeMod := by omega
    rw [h1, Nat.add_mod_right, Nat.mod_eq_of_lt (by omega)]
  · simp [remove_client, h]

/-- Witness for c9_counter_membership: adding a new address raises the counter
from 1 to 2; removing the present address lowers it from 1 to 0. -/
theorem c9_counter_membership_witness :
    (add_client ⟨[(1, 0)], 1⟩ 2 0).counter = 2 ∧
    (remove_client ⟨[(1, 0)], 1⟩ 1).counter = 0 :=
  ⟨(c9_counter_membership ⟨[(1, 0)], 1⟩ 2 0 (by norm_num [usizeMod])).1 (by decide),
   (c9_counter_membership ⟨[(1, 0)], 1⟩ 1 0 (by norm_num [usizeMod])).2.2.1
      (by decide) (by decide)⟩

/-- C10: process_command returns Ok exactly when the payload decoded as UTF-8
and the single response send succeeded — so an unparsable AT+BAUD= value, a
rate rejected by set_baudrate and an unknown command are all handled by
replying and still return Ok, while a non-UTF-8 payload or a failed response
write yields an error. -/
theorem c10_process_command_errors (payload : Option String) (st : UartState)
    (setEnv : SetBaudEnv) (sendResult : Except String Unit) :
    exceptOk (process_command payload st setEnv sendResult).result = true ↔
      (payload.isSome = true ∧ exceptOk sendResult = true) := by
  cases payload with
  | none => cases sendResult <;> simp [process_command, exceptOk]
  | some raw =>
      have h : (process_command (some raw) st setEnv sendResult).result = sendResult := by
        simp only [process_command]
        repeat' split
        all_goals rfl
      rw [h]
      simp

end Espc3
